import Mathlib

/-!
Verification development for the Sadaa Instrumentals backend
(`src/backend/server.py`, FastAPI over a Mongo-style document store).

The store is embedded as four in-memory collections (lists kept in
insertion order, which models Mongo's natural order for the small
collections this service uses).  `find_one` is first-match search,
`update_one` rewrites the first matching document, `insert_one` appends,
and `to_list(n)` truncates to the first `n` results.  Timestamps
(`datetime.utcnow()`) are modelled as seconds (`Nat`) passed in
explicitly; `timedelta(days = d)` is `d * 86400`.  Prices are exact
rationals.  Freshly generated uuids are passed in as parameters.
-/

namespace Sadaa

/-- Atom of the regular-expression fragment that the catalog search
endpoint exercises.  The code builds the Mongo query
`title: regex search, options "i"`, i.e. a case-insensitive unanchored
regex search.  Only the metacharacter `.` (match any character) is
modelled; every theorem about search restricts its pattern so that no
other PCRE metacharacter occurs, where this fragment is faithful. -/
inductive RAtom where
  | lit (c : Char)
  | dot
  deriving DecidableEq, Repr

/-- Case-insensitive match of one regex atom against one character. -/
def atomMatch : RAtom → Char → Bool
  | .dot, _ => true
  | .lit d, c => d.toLower == c.toLower

/-- Match the whole pattern at the start of the text. -/
def matchHere : List RAtom → List Char → Bool
  | [], _ => true
  | _ :: _, [] => false
  | a :: pat, c :: cs => atomMatch a c && matchHere pat cs

/-- Unanchored regex search: does the pattern match at some position? -/
def regexSearch (pat : List RAtom) : List Char → Bool
  | [] => matchHere pat []
  | c :: cs => matchHere pat (c :: cs) || regexSearch pat cs

/-- Parse a search string into regex atoms (`.` is the wildcard, all
other characters are literals; see `RAtom` for the modelled fragment). -/
def toAtoms (s : String) : List RAtom :=
  s.data.map fun c => if c == '.' then RAtom.dot else RAtom.lit c

/-- PCRE metacharacters.  Search strings avoiding all of these are
plain literal patterns. -/
def pcreMeta : List Char :=
  ['.', '^', '$', '*', '+', '?', '(', ')', '[', ']', '|', '\\',
   Char.ofNat 123, Char.ofNat 125]

/-- Modelled from the spec: case-insensitive prefix comparison,
used to state case-insensitive substring containment. -/
def isPrefixCI : List Char → List Char → Bool
  | [], _ => true
  | _ :: _, [] => false
  | a :: as, b :: bs => (a.toLower == b.toLower) && isPrefixCI as bs

/-- Modelled from the spec: `containsCI needle hay` holds when `needle`
occurs in `hay` as a case-insensitive substring. -/
def containsCI (needle : List Char) : List Char → Bool
  | [] => isPrefixCI needle []
  | c :: cs => isPrefixCI needle (c :: cs) || containsCI needle cs

/-- Modelled from the spec: the title contains the search string as a
case-insensitive substring. -/
def titleContainsCI (title s : String) : Bool :=
  containsCI s.data title.data

/-- Mongo `update_one`: rewrite the first document matching the filter,
leave everything else in place. -/
def updateFirst (p : α → Bool) (f : α → α) : List α → List α
  | [] => []
  | x :: xs => if p x then f x :: xs else x :: updateFirst p f xs

/-- Decidable equality of results, so that concrete endpoint outputs
can be checked by evaluation. -/
instance instDecEqExcept {ε α : Type} [DecidableEq ε] [DecidableEq α] :
    DecidableEq (Except ε α)
  | .error e, .error f =>
      if h : e = f then .isTrue (congrArg Except.error h)
      else .isFalse fun hc => h (Except.error.inj hc)
  | .error _, .ok _ => .isFalse fun hc => Except.noConfusion hc
  | .ok _, .error _ => .isFalse fun hc => Except.noConfusion hc
  | .ok a, .ok b =>
      if h : a = b then .isTrue (congrArg Except.ok h)
      else .isFalse fun hc => h (Except.ok.inj hc)

/-- An instrumental document (`class Instrumental`). -/
structure Instrumental where
  id : String
  title : String
  mood : String
  duration : Int
  duration_formatted : String
  is_premium : Bool
  is_featured : Bool
  audio_url : Option String
  thumbnail_color : String
  file_size : Int
  play_count : Int
  preview_start : Option Int
  preview_end : Option Int
  created_at : Nat
  deriving DecidableEq, Repr

/-- Partial update payload (`class InstrumentalUpdate`): every field
optional, `none` meaning "leave unchanged". -/
structure InstrumentalUpdate where
  title : Option String := none
  mood : Option String := none
  duration : Option Int := none
  duration_formatted : Option String := none
  is_premium : Option Bool := none
  is_featured : Option Bool := none
  audio_url : Option String := none
  thumbnail_color : Option String := none
  file_size : Option Int := none
  preview_start : Option Int := none
  preview_end : Option Int := none
  deriving DecidableEq, Repr

/-- Has the payload zero non-null fields?  (`update_data` empty after
dropping `None` values.) -/
def InstrumentalUpdate.isEmpty (u : InstrumentalUpdate) : Bool :=
  u.title == none && u.mood == none && u.duration == none &&
  u.duration_formatted == none && u.is_premium == none &&
  u.is_featured == none && u.audio_url == none &&
  u.thumbnail_color == none && u.file_size == none &&
  u.preview_start == none && u.preview_end == none

/-- Mongo `set update_data` on one document: each provided (non-null)
field overwrites, absent fields are untouched. -/
def applyUpdate (u : InstrumentalUpdate) (i : Instrumental) : Instrumental :=
  { i with
    title := u.title.getD i.title
    mood := u.mood.getD i.mood
    duration := u.duration.getD i.duration
    duration_formatted := u.duration_formatted.getD i.duration_formatted
    is_premium := u.is_premium.getD i.is_premium
    is_featured := u.is_featured.getD i.is_featured
    audio_url := u.audio_url.or i.audio_url
    thumbnail_color := u.thumbnail_color.getD i.thumbnail_color
    file_size := u.file_size.getD i.file_size
    preview_start := u.preview_start.or i.preview_start
    preview_end := u.preview_end.or i.preview_end }

/-- A user document (`class User`). -/
structure User where
  id : String
  device_id : String
  is_subscribed : Bool
  favorites : List String
  created_at : Nat
  deriving DecidableEq, Repr

/-- A playlist document (`class Playlist`). -/
structure Playlist where
  id : String
  user_id : String
  name : String
  description : String
  track_ids : List String
  cover_color : String
  created_at : Nat
  updated_at : Nat
  deriving DecidableEq, Repr

/-- A subscription document (`class Subscription`). -/
structure Subscription where
  id : String
  user_id : String
  is_active : Bool
  plan : String
  price : ℚ
  subscribed_at : Nat
  expires_at : Option Nat
  deriving DecidableEq, Repr

/-- The document store: the four collections used by the service. -/
structure DB where
  instrumentals : List Instrumental
  users : List User
  playlists : List Playlist
  subscriptions : List Subscription
  deriving DecidableEq, Repr

/-- HTTP error taxonomy of the service. -/
inductive ApiError where
  | notFound (msg : String)
  | badRequest (msg : String)
  deriving DecidableEq, Repr

/-- Mood filter clause of `get_instrumentals`: applied only when the
query parameter is present, non-empty (Python truthiness) and not the
sentinel `"All"`. -/
def moodFilter (mood : Option String) (i : Instrumental) : Bool :=
  match mood with
  | none => true
  | some m => if m != "" && m != "All" then i.mood == m else true

/-- Premium filter clause of `get_instrumentals`: applied whenever the
parameter is not `None`. -/
def premiumFilter (is_premium : Option Bool) (i : Instrumental) : Bool :=
  match is_premium with
  | none => true
  | some b => i.is_premium == b

/-- Search filter clause of `get_instrumentals`: applied when the
parameter is present and non-empty; a case-insensitive unanchored
regex search over the title. -/
def searchFilter (search : Option String) (i : Instrumental) : Bool :=
  match search with
  | none => true
  | some s => if s != "" then regexSearch (toAtoms s) i.title.data else true

/-- GET `/instrumentals` (`get_instrumentals`): compose the three
filter clauses with AND and return the first 100 matches. -/
def get_instrumentals (mood : Option String) (is_premium : Option Bool)
    (search : Option String) (db : DB) : List Instrumental :=
  (db.instrumentals.filter fun i =>
    moodFilter mood i && premiumFilter is_premium i && searchFilter search i).take 100

/-- PUT `/instrumentals/id` (`update_instrumental`): BadRequest on an
all-null payload (before any store write); otherwise `update_one` the
first matching document, NotFound when nothing matched, else re-read
and return the updated document. -/
def update_instrumental (iid : String) (u : InstrumentalUpdate) (db : DB) :
    Except ApiError Instrumental × DB :=
  if u.isEmpty then (.error (.badRequest "No update data provided"), db)
  else
    let matched := db.instrumentals.any fun i => i.id == iid
    let insts := updateFirst (fun i => i.id == iid) (applyUpdate u) db.instrumentals
    if matched then
      match insts.find? fun i => i.id == iid with
      | some i => (.ok i, { db with instrumentals := insts })
      | none => (.error (.notFound "Instrumental not found"), { db with instrumentals := insts })
    else
      (.error (.notFound "Instrumental not found"), db)

/-- POST `/instrumentals/id/play` (`increment_play_count`): `$inc` the
play counter of the first matching document; no existence check, the
response is success either way. -/
def increment_play_count (iid : String) (db : DB) : String × DB :=
  let insts :=
    updateFirst (fun i => i.id == iid)
      (fun i => { i with play_count := i.play_count + 1 }) db.instrumentals
  ("Play count incremented", { db with instrumentals := insts })

/-- GET `/favorites/user_id` (`get_favorites`): NotFound when the user
is absent; an empty favorites set short-circuits; otherwise fetch the
catalog documents whose id is in the set, capped at 100. -/
def get_favorites (uid : String) (db : DB) :
    Except ApiError (List Instrumental) × DB :=
  match db.users.find? fun u => u.id == uid with
  | none => (.error (.notFound "User not found"), db)
  | some user =>
    if user.favorites.isEmpty then (.ok [], db)
    else
      (.ok ((db.instrumentals.filter fun t => user.favorites.contains t.id).take 100), db)

/-- Python dict built from the fetched track documents (later entries
overwrite earlier ones with the same key). -/
def trackMapLookup (docs : List Instrumental) (tid : String) : Option Instrumental :=
  docs.reverse.find? fun t => t.id == tid

/-- GET `/playlists/detail/playlist_id` (`get_playlist`): NotFound when
absent; otherwise fetch at most 100 catalog documents whose id occurs
in `track_ids` and resolve the ids in playlist order, dropping ids
missing from the fetched map. -/
def get_playlist (pid : String) (db : DB) :
    Except ApiError (Playlist × List Instrumental) :=
  match db.playlists.find? fun p => p.id == pid with
  | none => .error (.notFound "Playlist not found")
  | some p =>
    let tracks :=
      if p.track_ids.isEmpty then []
      else
        let track_docs :=
          (db.instrumentals.filter fun t => p.track_ids.contains t.id).take 100
        p.track_ids.filterMap (trackMapLookup track_docs)
    .ok (p, tracks)

/-- POST `/subscription/subscribe` (`subscribe`): return the first
active subscription of the user unchanged when one exists; otherwise
price and expiry come from the plan (`"yearly"` vs everything else),
the new row is inserted and the user's flag is set. -/
def subscribe (uid plan newId : String) (now : Nat) (db : DB) :
    Subscription × DB :=
  match db.subscriptions.find? fun s => s.user_id == uid && s.is_active with
  | some existing => (existing, db)
  | none =>
    let expires_at : Nat := if plan == "yearly" then now + 365 * 86400 else now + 30 * 86400
    let price : ℚ := if plan == "yearly" then 499 else 53
    let sub : Subscription :=
      { id := newId, user_id := uid, is_active := true, plan := plan,
        price := price, subscribed_at := now, expires_at := some expires_at }
    (sub,
     { db with
        subscriptions := db.subscriptions ++ [sub]
        users := updateFirst (fun u => u.id == uid)
          (fun u => { u with is_subscribed := true }) db.users })

/-- Response shape of the status endpoint. -/
structure SubStatus where
  is_subscribed : Bool
  subscription : Option Subscription
  deriving DecidableEq, Repr

/-- GET `/subscription/status/user_id` (`get_subscription_status`):
find the first active subscription; none means unsubscribed; a
non-null expiry strictly in the past triggers the lazy transition
(deactivate the row, clear the user's flag, report unsubscribed);
otherwise report subscribed with the record. -/
def get_subscription_status (uid : String) (now : Nat) (db : DB) :
    SubStatus × DB :=
  match db.subscriptions.find? fun s => s.user_id == uid && s.is_active with
  | none => ({ is_subscribed := false, subscription := none }, db)
  | some sub =>
    match sub.expires_at with
    | some e =>
      if e < now then
        ({ is_subscribed := false, subscription := none },
         { db with
            subscriptions := updateFirst (fun s => s.id == sub.id)
              (fun s => { s with is_active := false }) db.subscriptions
            users := updateFirst (fun u => u.id == uid)
              (fun u => { u with is_subscribed := false }) db.users })
      else ({ is_subscribed := true, subscription := some sub }, db)
    | none => ({ is_subscribed := true, subscription := some sub }, db)

/-- Response shape of the restore endpoint. -/
structure RestoreResp where
  restored : Bool
  subscription : Option Subscription
  deriving DecidableEq, Repr

/-- POST `/subscription/restore/user_id` (`restore_purchase`): a pure
read of the first active subscription, no store write on any path. -/
def restore_purchase (uid : String) (db : DB) : RestoreResp × DB :=
  match db.subscriptions.find? fun s => s.user_id == uid && s.is_active with
  | some s => ({ restored := true, subscription := some s }, db)
  | none => ({ restored := false, subscription := none }, db)

/-- Concrete instrumental with the given id and title (all other fields
at the model defaults), used in concrete instances below. -/
def mkTrack (id title : String) : Instrumental :=
  { id := id, title := title, mood := "Calm", duration := 180,
    duration_formatted := "3:00", is_premium := false, is_featured := false,
    audio_url := none, thumbnail_color := "#4A3463", file_size := 0,
    play_count := 0, preview_start := none, preview_end := none, created_at := 0 }

/-- Catalog holding one track titled "abc". -/
def dotDB : DB :=
  { instrumentals := [mkTrack "i1" "abc"], users := [], playlists := [], subscriptions := [] }

/-- Catalog holding one track titled "Nasheed of Dawn". -/
def dawnDB : DB :=
  { instrumentals := [mkTrack "i1" "Nasheed of Dawn"], users := [], playlists := [],
    subscriptions := [] }

/-- A catalog of 101 tracks with distinct ids `"0"` .. `"100"`. -/
def bigCatalog : List Instrumental :=
  (List.range 101).map fun n => mkTrack (toString n) "Track"

/-- The 101 ids of `bigCatalog`, in catalog order. -/
def bigIds : List String :=
  (List.range 101).map toString

/-- A playlist referencing all 101 tracks of `bigCatalog`. -/
def bigPlaylist : Playlist :=
  { id := "p1", user_id := "u1", name := "All", description := "",
    track_ids := bigIds, cover_color := "#4A3463", created_at := 0, updated_at := 0 }

/-- Store with the 101-track catalog and the playlist over all of it. -/
def playlistDB : DB :=
  { instrumentals := bigCatalog, users := [], playlists := [bigPlaylist],
    subscriptions := [] }

/-- Playlist with track ids A, B, C where B is absent from the catalog. -/
def smallPlaylist : Playlist :=
  { id := "p2", user_id := "u1", name := "Mix", description := "",
    track_ids := ["A", "B", "C"], cover_color := "#4A3463", created_at := 0,
    updated_at := 0 }

/-- Store whose catalog holds A and C but not B. -/
def smallDB : DB :=
  { instrumentals := [mkTrack "A" "First", mkTrack "C" "Third"], users := [],
    playlists := [smallPlaylist], subscriptions := [] }

/-- A user whose favorites set references all 101 tracks of `bigCatalog`. -/
def favUser : User :=
  { id := "u1", device_id := "dev", is_subscribed := false, favorites := bigIds,
    created_at := 0 }

/-- Store with the 101-track catalog and the heavy-favorites user. -/
def favDB : DB :=
  { instrumentals := bigCatalog, users := [favUser], playlists := [],
    subscriptions := [] }

/-- Update payload providing only a new title. -/
def updTitle : InstrumentalUpdate := { title := some "New Title" }

/-- Update payload with zero non-null fields. -/
def updNone : InstrumentalUpdate := {}

/-- Two-track catalog used for the update and play-count instances. -/
def c3DB : DB :=
  { instrumentals := [mkTrack "i1" "Old", mkTrack "i2" "Other"], users := [],
    playlists := [], subscriptions := [] }

/-- An active subscription whose expiry (second 100) is in the past. -/
def expiredSub : Subscription :=
  { id := "s1", user_id := "u1", is_active := true, plan := "monthly",
    price := 53, subscribed_at := 0, expires_at := some 100 }

/-- A currently subscribed user record. -/
def subUser : User :=
  { id := "u1", device_id := "dev", is_subscribed := true, favorites := [],
    created_at := 0 }

/-- Store holding the expired-but-still-active subscription. -/
def expiredDB : DB :=
  { instrumentals := [], users := [subUser], playlists := [],
    subscriptions := [expiredSub] }

/-- A user with no subscription row at all. -/
def freshUser : User :=
  { id := "u1", device_id := "dev", is_subscribed := false, favorites := [],
    created_at := 0 }

/-- Store with the unsubscribed user and no subscriptions. -/
def freshDB : DB :=
  { instrumentals := [], users := [freshUser], playlists := [],
    subscriptions := [] }

/-- An active, far-from-expiry subscription. -/
def activeSub : Subscription :=
  { id := "s1", user_id := "u1", is_active := true, plan := "yearly",
    price := 499, subscribed_at := 0, expires_at := some 10000000 }

/-- Store holding the active subscription. -/
def activeDB : DB :=
  { instrumentals := [], users := [subUser], playlists := [],
    subscriptions := [activeSub] }

/-- Rewriting the first match of a predicate that holds nowhere is the
identity. -/
theorem updateFirst_of_none {α : Type} {p : α → Bool} {f : α → α} :
    ∀ {l : List α}, (∀ y ∈ l, p y = false) → updateFirst p f l = l
  | [], _ => rfl
  | x :: xs, h => by
    have hx := h x (List.mem_cons_self x xs)
    simp only [updateFirst, hx, Bool.false_eq_true, if_false, List.cons.injEq, true_and]
    exact updateFirst_of_none fun y hy => h y (List.mem_cons_of_mem x hy)

/-- Rewriting the first match when the head of the matching suffix is
known: everything before it is kept, everything after it is kept. -/
theorem updateFirst_append {α : Type} {p : α → Bool} (f : α → α) :
    ∀ {pre : List α} {x : α}, (∀ y ∈ pre, p y = false) → p x = true →
      ∀ post : List α, updateFirst p f (pre ++ x :: post) = pre ++ f x :: post
  | [], x, _, hx, post => by simp [updateFirst, hx]
  | a :: pre, x, h, hx, post => by
    have ha := h a (List.mem_cons_self a pre)
    simp only [List.cons_append, updateFirst, ha, Bool.false_eq_true, if_false,
      List.cons.injEq, true_and]
    exact updateFirst_append f (fun y hy => h y (List.mem_cons_of_mem a hy)) hx post

/-- Search finds the head of the matching suffix when nothing before it
matches. -/
theorem find?_append_first {α : Type} {p : α → Bool} :
    ∀ {pre : List α} {x : α}, (∀ y ∈ pre, p y = false) → p x = true →
      ∀ post : List α, (pre ++ x :: post).find? p = some x
  | [], x, _, hx, post => by simp [List.find?, hx]
  | a :: pre, x, h, hx, post => by
    have ha := h a (List.mem_cons_self a pre)
    simp only [List.cons_append, List.find?, ha]
    exact find?_append_first (fun y hy => h y (List.mem_cons_of_mem a hy)) hx post

/-- A successful search splits the list at the first match. -/
theorem find?_decomp {α : Type} {p : α → Bool} {l : List α} {x : α}
    (h : l.find? p = some x) :
    ∃ pre post, l = pre ++ x :: post ∧ ∀ y ∈ pre, p y = false := by
  induction l with
  | nil => simp [List.find?] at h
  | cons a as ih =>
    by_cases hpa : p a = true
    · refine ⟨[], as, ?_, by simp⟩
      simp only [List.find?, hpa] at h
      simp [Option.some_injective _ h]
    · have hfa : p a = false := by simpa using hpa
      have h' : as.find? p = some x := by
        simpa only [List.find?, hfa] using h
      obtain ⟨pre, post, he, hf⟩ := ih h'
      refine ⟨a :: pre, post, by simp [he], ?_⟩
      intro y hy
      rcases List.mem_cons.mp hy with rfl | hy
      · exact hfa
      · exact hf y hy

/-- In a list whose image under `f` has no duplicates, no element after
the distinguished middle element shares its `f`-value. -/
theorem nodup_map_middle {α β : Type} {f : α → β} {pre post : List α} {x : α}
    (h : ((pre ++ x :: post).map f).Nodup) {y : α} (hy : y ∈ post) :
    f y ≠ f x := by
  rw [List.map_append, List.map_cons] at h
  have h2 := (List.nodup_append.mp h).2.1
  have hx := (List.nodup_cons.mp h2).1
  intro he
  exact hx (he ▸ List.mem_map_of_mem f hy)

/-- C8: Restore reports whether an active subscription row exists for
the user, returning the first such row when found, and never mutates
any state — even when the found subscription is past its expiry the
store comes back unchanged, since no path performs a write. -/
theorem C8_restore_pure (uid : String) (db : DB) :
    (restore_purchase uid db).2 = db ∧
    ((restore_purchase uid db).1.restored = true ↔
      ∃ s ∈ db.subscriptions, s.user_id = uid ∧ s.is_active = true) ∧
    ∀ s, db.subscriptions.find? (fun t => t.user_id == uid && t.is_active) = some s →
      (restore_purchase uid db).1.subscription = some s := by
  rcases hf : db.subscriptions.find? (fun t => t.user_id == uid && t.is_active) with _ | s
  · have hnone : ∀ x ∈ db.subscriptions, ¬(x.user_id = uid ∧ x.is_active = true) := by
      intro x hx
      have hb := List.find?_eq_none.mp hf x hx
      simpa using hb
    refine ⟨by simp [restore_purchase, hf], ?_, ?_⟩
    · simp only [restore_purchase, hf]
      constructor
      · intro h; exact absurd h (by simp)
      · rintro ⟨s, hs, h1, h2⟩
        exact absurd ⟨h1, h2⟩ (hnone s hs)
    · intro s hs
      rw [hf] at hs
      exact absurd hs (by simp)
  · have hmem := List.mem_of_find?_eq_some hf
    have hp := List.find?_some hf
    simp only [Bool.and_eq_true, beq_iff_eq] at hp
    refine ⟨by simp [restore_purchase, hf], ?_, ?_⟩
    · simp only [restore_purchase, hf]
      exact ⟨fun _ => ⟨s, hmem, hp.1, hp.2⟩, fun _ => trivial⟩
    · intro t ht
      rw [hf] at ht
      simp only [restore_purchase, hf]
      exact congrArg some (Option.some_injective _ ht)

/-- C8 witness at the concrete active-subscription store. -/
theorem C8_restore_pure_witness :
    (restore_purchase "u1" activeDB).2 = activeDB ∧
    (restore_purchase "u1" activeDB).1.subscription = some activeSub :=
  ⟨(C8_restore_pure "u1" activeDB).1,
   (C8_restore_pure "u1" activeDB).2.2 activeSub rfl⟩

/-- C7: IncrementPlayCount increments exactly the first matching
record's play counter by one and alters no other field or record;
when no record carries the id it still responds with success and the
store is unchanged. -/
theorem C7_increment_play_count_spec (iid : String) (db : DB) :
    (increment_play_count iid db).1 = "Play count incremented" ∧
    ((∀ i ∈ db.instrumentals, i.id ≠ iid) → (increment_play_count iid db).2 = db) ∧
    ∀ pre x post, db.instrumentals = pre ++ x :: post → x.id = iid →
      (∀ y ∈ pre, y.id ≠ iid) →
      ∃ x', (increment_play_count iid db).2 = { db with instrumentals := pre ++ x' :: post } ∧
        x'.play_count = x.play_count + 1 ∧ x'.id = x.id ∧ x'.title = x.title ∧
        x'.mood = x.mood ∧ x'.duration = x.duration ∧
        x'.duration_formatted = x.duration_formatted ∧
        x'.is_premium = x.is_premium ∧ x'.is_featured = x.is_featured ∧
        x'.audio_url = x.audio_url ∧ x'.thumbnail_color = x.thumbnail_color ∧
        x'.file_size = x.file_size ∧ x'.preview_start = x.preview_start ∧
        x'.preview_end = x.preview_end ∧ x'.created_at = x.created_at := by
  refine ⟨rfl, ?_, ?_⟩
  · intro h
    have hu : updateFirst (fun i => i.id == iid)
        (fun i => { i with play_count := i.play_count + 1 }) db.instrumentals
        = db.instrumentals :=
      updateFirst_of_none fun y hy => by simpa using h y hy
    simp [increment_play_count, hu]
  · intro pre x post he hx hpre
    refine ⟨{ x with play_count := x.play_count + 1 }, ?_, rfl, rfl, rfl, rfl, rfl,
      rfl, rfl, rfl, rfl, rfl, rfl, rfl, rfl, rfl⟩
    have hu : updateFirst (fun i => i.id == iid)
        (fun i => { i with play_count := i.play_count + 1 }) db.instrumentals
        = pre ++ { x with play_count := x.play_count + 1 } :: post := by
      rw [he]
      exact updateFirst_append _ (fun y hy => by simpa using hpre y hy)
        (by simp [hx]) post
    simp [increment_play_count, hu]

/-- C7 witness: bumping track i1 in the two-track catalog. -/
theorem C7_increment_play_count_witness :
    ∃ x', (increment_play_count "i1" c3DB).2
        = { c3DB with instrumentals := [] ++ x' :: [mkTrack "i2" "Other"] } ∧
      x'.play_count = (mkTrack "i1" "Old").play_count + 1 ∧
      x'.id = (mkTrack "i1" "Old").id ∧ x'.title = (mkTrack "i1" "Old").title ∧
      x'.mood = (mkTrack "i1" "Old").mood ∧
      x'.duration = (mkTrack "i1" "Old").duration ∧
      x'.duration_formatted = (mkTrack "i1" "Old").duration_formatted ∧
      x'.is_premium = (mkTrack "i1" "Old").is_premium ∧
      x'.is_featured = (mkTrack "i1" "Old").is_featured ∧
      x'.audio_url = (mkTrack "i1" "Old").audio_url ∧
      x'.thumbnail_color = (mkTrack "i1" "Old").thumbnail_color ∧
      x'.file_size = (mkTrack "i1" "Old").file_size ∧
      x'.preview_start = (mkTrack "i1" "Old").preview_start ∧
      x'.preview_end = (mkTrack "i1" "Old").preview_end ∧
      x'.created_at = (mkTrack "i1" "Old").created_at :=
  (C7_increment_play_count_spec "i1" c3DB).2.2 [] (mkTrack "i1" "Old")
    [mkTrack "i2" "Other"] rfl rfl (by simp)

/-- C5: while an active subscription row exists for the user, Subscribe
with any plan returns the first such row unchanged and the whole store
is returned exactly as it was. -/
theorem C5_subscribe_idempotent (uid plan newId : String) (now : Nat) (db : DB)
    (ex : Subscription)
    (hfind : db.subscriptions.find? (fun s => s.user_id == uid && s.is_active) = some ex) :
    subscribe uid plan newId now db = (ex, db) ∧
    ex ∈ db.subscriptions ∧ ex.user_id = uid ∧ ex.is_active = true := by
  have hp := List.find?_some hfind
  simp only [Bool.and_eq_true, beq_iff_eq] at hp
  exact ⟨by simp [subscribe, hfind], List.mem_of_find?_eq_some hfind, hp.1, hp.2⟩

/-- C5 witness: a second subscribe call against the active store. -/
theorem C5_subscribe_idempotent_witness :
    subscribe "u1" "monthly" "s2" 500 activeDB = (activeSub, activeDB) ∧
    activeSub ∈ activeDB.subscriptions ∧ activeSub.user_id = "u1" ∧
    activeSub.is_active = true :=
  C5_subscribe_idempotent "u1" "monthly" "s2" 500 activeDB activeSub rfl

/-- C3: Update with an all-null payload fails with BadRequest before
any store write, leaving the store unchanged; otherwise it fails with
NotFound when no record carries the id, and on a present id replaces
exactly the provided fields of the first matching record, leaving all
its other fields and every other record untouched. -/
theorem C3_update_instrumental_spec (iid : String) (u : InstrumentalUpdate) (db : DB) :
    (u.isEmpty = true →
      update_instrumental iid u db = (.error (.badRequest "No update data provided"), db)) ∧
    (u.isEmpty = false → (∀ i ∈ db.instrumentals, i.id ≠ iid) →
      update_instrumental iid u db = (.error (.notFound "Instrumental not found"), db)) ∧
    (u.isEmpty = false → ∀ pre x post, db.instrumentals = pre ++ x :: post →
      x.id = iid → (∀ y ∈ pre, y.id ≠ iid) →
      ∃ x', (update_instrumental iid u db).1 = .ok x' ∧
        (update_instrumental iid u db).2 = { db with instrumentals := pre ++ x' :: post } ∧
        x'.id = x.id ∧
        x'.title = u.title.getD x.title ∧
        x'.mood = u.mood.getD x.mood ∧
        x'.duration = u.duration.getD x.duration ∧
        x'.duration_formatted = u.duration_formatted.getD x.duration_formatted ∧
        x'.is_premium = u.is_premium.getD x.is_premium ∧
        x'.is_featured = u.is_featured.getD x.is_featured ∧
        x'.audio_url = u.audio_url.or x.audio_url ∧
        x'.thumbnail_color = u.thumbnail_color.getD x.thumbnail_color ∧
        x'.file_size = u.file_size.getD x.file_size ∧
        x'.preview_start = u.preview_start.or x.preview_start ∧
        x'.preview_end = u.preview_end.or x.preview_end ∧
        x'.play_count = x.play_count ∧
        x'.created_at = x.created_at) := by
  refine ⟨fun h => by simp [update_instrumental, h], ?_, ?_⟩
  · intro hne h
    have hany : db.instrumentals.any (fun i => i.id == iid) = false := by
      rw [List.any_eq_false]
      intro i hi
      simpa using h i hi
    simp [update_instrumental, hne, hany]
  · intro hne pre x post he hx hpre
    refine ⟨applyUpdate u x, ?_, ?_, rfl, rfl, rfl, rfl, rfl, rfl, rfl, rfl, rfl,
      rfl, rfl, rfl, rfl, rfl⟩ <;>
    · have hany : db.instrumentals.any (fun i => i.id == iid) = true := by
        rw [List.any_eq_true]
        exact ⟨x, he ▸ List.mem_append_right pre (List.mem_cons_self x post), by simp [hx]⟩
      have hu : updateFirst (fun i => i.id == iid) (applyUpdate u) db.instrumentals
          = pre ++ applyUpdate u x :: post := by
        rw [he]
        exact updateFirst_append _ (fun y hy => by simpa using hpre y hy)
          (by simp [hx]) post
      have hfind : (pre ++ applyUpdate u x :: post).find? (fun i => i.id == iid)
          = some (applyUpdate u x) := by
        refine find?_append_first (fun y hy => by simpa using hpre y hy) ?_ post
        have : (applyUpdate u x).id = x.id := rfl
        simp [this, hx]
      simp [update_instrumental, hne, hany, hu, hfind]

/-- C3 witness: a title-only update of track i1 in the two-track
catalog. -/
theorem C3_update_instrumental_witness :
    ∃ x', (update_instrumental "i1" updTitle c3DB).1 = .ok x' ∧
      (update_instrumental "i1" updTitle c3DB).2
        = { c3DB with instrumentals := [] ++ x' :: [mkTrack "i2" "Other"] } ∧
      x'.id = (mkTrack "i1" "Old").id ∧
      x'.title = updTitle.title.getD (mkTrack "i1" "Old").title ∧
      x'.mood = updTitle.mood.getD (mkTrack "i1" "Old").mood ∧
      x'.duration = updTitle.duration.getD (mkTrack "i1" "Old").duration ∧
      x'.duration_formatted
        = updTitle.duration_formatted.getD (mkTrack "i1" "Old").duration_formatted ∧
      x'.is_premium = updTitle.is_premium.getD (mkTrack "i1" "Old").is_premium ∧
      x'.is_featured = updTitle.is_featured.getD (mkTrack "i1" "Old").is_featured ∧
      x'.audio_url = updTitle.audio_url.or (mkTrack "i1" "Old").audio_url ∧
      x'.thumbnail_color
        = updTitle.thumbnail_color.getD (mkTrack "i1" "Old").thumbnail_color ∧
      x'.file_size = updTitle.file_size.getD (mkTrack "i1" "Old").file_size ∧
      x'.preview_start = updTitle.preview_start.or (mkTrack "i1" "Old").preview_start ∧
      x'.preview_end = updTitle.preview_end.or (mkTrack "i1" "Old").preview_end ∧
      x'.play_count = (mkTrack "i1" "Old").play_count ∧
      x'.created_at = (mkTrack "i1" "Old").created_at :=
  (C3_update_instrumental_spec "i1" updTitle c3DB).2.2 rfl [] (mkTrack "i1" "Old")
    [mkTrack "i2" "Other"] rfl rfl (by simp)

/-- C4: with no active subscription for the user, Subscribe prices and
dates the new row by plan — yearly: expiry is subscribed_at plus 365
days and price 499; monthly: subscribed_at plus 30 days and price 53 —
appends exactly that row, and flips the user's is_subscribed flag to
true, touching no other collection. -/
theorem C4_subscribe_plans (uid newId : String) (now : Nat) (db : DB) (user : User)
    (hno : ∀ s ∈ db.subscriptions, ¬(s.user_id = uid ∧ s.is_active = true))
    (huser : db.users.find? (fun v => v.id == uid) = some user) :
    ∀ plan, plan = "yearly" ∨ plan = "monthly" →
      (subscribe uid plan newId now db).2.subscriptions
          = db.subscriptions ++ [(subscribe uid plan newId now db).1] ∧
      (subscribe uid plan newId now db).2.instrumentals = db.instrumentals ∧
      (subscribe uid plan newId now db).2.playlists = db.playlists ∧
      (subscribe uid plan newId now db).1.user_id = uid ∧
      (subscribe uid plan newId now db).1.is_active = true ∧
      (subscribe uid plan newId now db).1.subscribed_at = now ∧
      (plan = "yearly" →
        (subscribe uid plan newId now db).1.expires_at
            = some ((subscribe uid plan newId now db).1.subscribed_at + 365 * 86400) ∧
        (subscribe uid plan newId now db).1.price = 499) ∧
      (plan = "monthly" →
        (subscribe uid plan newId now db).1.expires_at
            = some ((subscribe uid plan newId now db).1.subscribed_at + 30 * 86400) ∧
        (subscribe uid plan newId now db).1.price = 53) ∧
      (subscribe uid plan newId now db).2.users.find? (fun v => v.id == uid)
          = some { user with is_subscribed := true } := by
  intro plan hplan
  have hfind : db.subscriptions.find? (fun s => s.user_id == uid && s.is_active) = none := by
    rw [List.find?_eq_none]
    intro s hs
    simpa using hno s hs
  obtain ⟨upre, upost, hue, huf⟩ := find?_decomp huser
  have hpu := List.find?_some huser
  have husers : updateFirst (fun v => v.id == uid)
      (fun v => { v with is_subscribed := true }) db.users
      = upre ++ { user with is_subscribed := true } :: upost := by
    rw [hue]
    exact updateFirst_append _ huf hpu upost
  have hufind : (upre ++ { user with is_subscribed := true } :: upost).find?
      (fun v => v.id == uid) = some { user with is_subscribed := true } := by
    refine find?_append_first huf ?_ upost
    simpa using hpu
  rcases hplan with h | h <;> subst h
  · simp only [subscribe, hfind]
    refine ⟨by trivial, by trivial, by trivial, by trivial, by trivial, by trivial,
      fun _ => ⟨by simp, by simp⟩, fun hc => absurd hc (by decide), ?_⟩
    rw [husers, hufind]
  · simp only [subscribe, hfind]
    refine ⟨by trivial, by trivial, by trivial, by trivial, by trivial, by trivial,
      fun hc => absurd hc (by decide), fun _ => ⟨by simp, by simp⟩, ?_⟩
    rw [husers, hufind]

/-- C4 witness: a yearly subscribe for the fresh user at time 1000. -/
theorem C4_subscribe_plans_witness :
    (subscribe "u1" "yearly" "s1" 1000 freshDB).2.subscriptions
        = freshDB.subscriptions ++ [(subscribe "u1" "yearly" "s1" 1000 freshDB).1] ∧
    (subscribe "u1" "yearly" "s1" 1000 freshDB).1.expires_at
        = some ((subscribe "u1" "yearly" "s1" 1000 freshDB).1.subscribed_at + 365 * 86400) ∧
    (subscribe "u1" "yearly" "s1" 1000 freshDB).1.price = 499 ∧
    (subscribe "u1" "yearly" "s1" 1000 freshDB).2.users.find? (fun v => v.id == "u1")
        = some { freshUser with is_subscribed := true } := by
  have h := C4_subscribe_plans "u1" "s1" 1000 freshDB freshUser
    (by intro s hs; simp [freshDB] at hs) rfl "yearly" (Or.inl rfl)
  exact ⟨h.1, (h.2.2.2.2.2.2.1 rfl).1, (h.2.2.2.2.2.2.1 rfl).2, h.2.2.2.2.2.2.2.2⟩

/-- C9: with no active subscription, any plan string other than
"yearly" (unrecognized values included) is accepted and priced on the
monthly terms — expiry 30 days out, price 53 — while the supplied plan
string is stored verbatim in the inserted row. -/
theorem C9_subscribe_nonyearly (uid plan newId : String) (now : Nat) (db : DB)
    (hplan : plan ≠ "yearly")
    (hno : ∀ s ∈ db.subscriptions, ¬(s.user_id = uid ∧ s.is_active = true)) :
    (subscribe uid plan newId now db).2.subscriptions
        = db.subscriptions ++ [(subscribe uid plan newId now db).1] ∧
    (subscribe uid plan newId now db).1.plan = plan ∧
    (subscribe uid plan newId now db).1.user_id = uid ∧
    (subscribe uid plan newId now db).1.is_active = true ∧
    (subscribe uid plan newId now db).1.subscribed_at = now ∧
    (subscribe uid plan newId now db).1.expires_at = some (now + 30 * 86400) ∧
    (subscribe uid plan newId now db).1.price = 53 := by
  have hfind : db.subscriptions.find? (fun s => s.user_id == uid && s.is_active) = none := by
    rw [List.find?_eq_none]
    intro s hs
    simpa using hno s hs
  have hbeq : (plan == "yearly") = false := by simpa using hplan
  simp [subscribe, hfind, hbeq]

/-- C9 witness: subscribing with the unrecognized plan "weekly". -/
theorem C9_subscribe_nonyearly_witness :
    (subscribe "u1" "weekly" "s1" 1000 freshDB).2.subscriptions
        = freshDB.subscriptions ++ [(subscribe "u1" "weekly" "s1" 1000 freshDB).1] ∧
    (subscribe "u1" "weekly" "s1" 1000 freshDB).1.plan = "weekly" ∧
    (subscribe "u1" "weekly" "s1" 1000 freshDB).1.user_id = "u1" ∧
    (subscribe "u1" "weekly" "s1" 1000 freshDB).1.is_active = true ∧
    (subscribe "u1" "weekly" "s1" 1000 freshDB).1.subscribed_at = 1000 ∧
    (subscribe "u1" "weekly" "s1" 1000 freshDB).1.expires_at = some (1000 + 30 * 86400) ∧
    (subscribe "u1" "weekly" "s1" 1000 freshDB).1.price = 53 :=
  C9_subscribe_nonyearly "u1" "weekly" "s1" 1000 freshDB (by decide)
    (by intro s hs; simp [freshDB] at hs)

/-- C10: Favorites List for an existing user never returns more than
100 instrumentals and never mutates the store; when more than 100 of
the user's favorite ids resolve against the catalog the result is
silently truncated to exactly the first 100 resolved documents. -/
theorem C10_get_favorites_cap (uid : String) (db : DB) (user : User)
    (huser : db.users.find? (fun v => v.id == uid) = some user) :
    ∃ l, (get_favorites uid db).1 = .ok l ∧ (get_favorites uid db).2 = db ∧
      l.length ≤ 100 ∧
      (100 < (db.instrumentals.filter fun t => user.favorites.contains t.id).length →
        l = (db.instrumentals.filter fun t => user.favorites.contains t.id).take 100 ∧
        l.length = 100) := by
  by_cases hemp : user.favorites.isEmpty = true
  · have hnil : user.favorites = [] := List.isEmpty_iff.mp hemp
    refine ⟨[], by simp [get_favorites, huser, hemp], by simp [get_favorites, huser, hemp],
      by simp, ?_⟩
    intro hgt
    rw [hnil] at hgt
    simp at hgt
  · have hemp' : user.favorites.isEmpty = false := by simpa using hemp
    refine ⟨(db.instrumentals.filter fun t => user.favorites.contains t.id).take 100,
      by simp [get_favorites, huser, hemp'], by simp [get_favorites, huser, hemp'],
      List.length_take_le 100 _, ?_⟩
    intro hgt
    refine ⟨rfl, ?_⟩
    rw [List.length_take]
    exact min_eq_left (le_of_lt hgt)

set_option maxRecDepth 8000 in
/-- C10 witness: the heavy-favorites user gets exactly 100 tracks back
out of 101 resolvable favorites. -/
theorem C10_get_favorites_cap_witness :
    ∃ l, (get_favorites "u1" favDB).1 = .ok l ∧ l.length = 100 := by
  obtain ⟨l, h1, h2, h3, h4⟩ := C10_get_favorites_cap "u1" favDB favUser rfl
  have hgt : 100 < (favDB.instrumentals.filter fun t => favUser.favorites.contains t.id).length := by
    decide
  exact ⟨l, h1, (h4 hgt).2⟩

/-- Looking an id up in the python dict built from the filtered track
fetch equals first-match search in the whole catalog, provided catalog
ids are distinct and the id was one of the requested ones. -/
theorem trackMapLookup_filter {cat : List Instrumental} {ids : List String}
    (hnodup : (cat.map Instrumental.id).Nodup) {tid : String} (htid : tid ∈ ids) :
    trackMapLookup (cat.filter fun t => ids.contains t.id) tid
      = cat.find? fun t => t.id == tid := by
  rcases hf : cat.find? (fun t => t.id == tid) with _ | x
  · have hnone := List.find?_eq_none.mp hf
    rw [trackMapLookup, hf, List.find?_eq_none]
    intro y hy
    exact hnone y (List.mem_of_mem_filter (List.mem_reverse.mp hy))
  · have hmem := List.mem_of_find?_eq_some hf
    have hxid : x.id = tid := by simpa using List.find?_some hf
    have hxf : x ∈ (cat.filter fun t => ids.contains t.id).reverse := by
      rw [List.mem_reverse]
      refine List.mem_filter.mpr ⟨hmem, ?_⟩
      rw [hxid]
      simpa using htid
    have hsome : ((cat.filter fun t => ids.contains t.id).reverse.find?
        (fun t => t.id == tid)).isSome := by
      rw [List.find?_isSome]
      exact ⟨x, hxf, by simp [hxid]⟩
    obtain ⟨y, hy⟩ := Option.isSome_iff_exists.mp hsome
    have hymem : y ∈ cat :=
      List.mem_of_mem_filter (List.mem_reverse.mp (List.mem_of_find?_eq_some hy))
    have hyid : y.id = tid := by simpa using List.find?_some hy
    have hyx : y = x := List.inj_on_of_nodup_map hnodup hymem hmem (by rw [hyid, hxid])
    rw [trackMapLookup, hy, hyx, hf]

/-- C2 (amended): GetDetail fails with NotFound on an absent playlist
id; on a present playlist whose track_ids resolve to at most 100
catalog documents (catalog ids distinct), the returned track list is
track_ids resolved in order against the catalog, with ids that match
no instrumental silently omitted. -/
theorem C2_get_playlist_detail (pid : String) (db : DB)
    (hnodup : (db.instrumentals.map Instrumental.id).Nodup) :
    ((db.playlists.find? fun q => q.id == pid) = none →
      get_playlist pid db = .error (.notFound "Playlist not found")) ∧
    ∀ p, (db.playlists.find? fun q => q.id == pid) = some p →
      (db.instrumentals.filter fun t => p.track_ids.contains t.id).length ≤ 100 →
      get_playlist pid db
        = .ok (p, p.track_ids.filterMap fun tid =>
            db.instrumentals.find? fun t => t.id == tid) := by
  constructor
  · intro h
    simp [get_playlist, h]
  · intro p hp hlen
    have htake : (db.instrumentals.filter fun t => p.track_ids.contains t.id).take 100
        = db.instrumentals.filter fun t => p.track_ids.contains t.id :=
      List.take_of_length_le hlen
    have hmaps : ∀ tid ∈ p.track_ids,
        trackMapLookup ((db.instrumentals.filter fun t => p.track_ids.contains t.id).take 100) tid
          = db.instrumentals.find? fun t => t.id == tid := by
      intro tid htid
      rw [htake]
      exact trackMapLookup_filter hnodup htid
    by_cases hemp : p.track_ids.isEmpty = true
    · have hnil : p.track_ids = [] := List.isEmpty_iff.mp hemp
      simp [get_playlist, hp, hemp, hnil]
    · have hemp' : p.track_ids.isEmpty = false := by simpa using hemp
      have hcong := List.filterMap_congr hmaps
      simp only [get_playlist, hp, hemp', Bool.false_eq_true, if_false, hcong]

/-- C2 witness: track_ids A, B, C with B absent from the catalog
resolve to the A and C records, in that order. -/
theorem C2_get_playlist_detail_witness :
    get_playlist "p2" smallDB
      = .ok (smallPlaylist, smallPlaylist.track_ids.filterMap fun tid =>
          smallDB.instrumentals.find? fun t => t.id == tid) ∧
    get_playlist "p2" smallDB
      = .ok (smallPlaylist, [mkTrack "A" "First", mkTrack "C" "Third"]) :=
  ⟨(C2_get_playlist_detail "p2" smallDB (by decide)).2 smallPlaylist rfl (by decide),
   by decide⟩

set_option maxRecDepth 8000 in
/-- C2 counterexample: all 101 playlist ids exist in the catalog, yet
the returned list is not the full in-order resolution of track_ids —
the capped fetch drops a track that is present in the catalog. -/
theorem C2_get_playlist_counterexample :
    get_playlist "p1" playlistDB
      ≠ .ok (bigPlaylist, bigPlaylist.track_ids.filterMap fun tid =>
          playlistDB.instrumentals.find? fun t => t.id == tid) := by
  decide

/-- C1: GetStatus on a user whose unique active subscription has a
non-null expiry strictly in the past reports unsubscribed, flips that
row's is_active to false (touching no other row or collection besides
the user flag), clears the user's is_subscribed flag; a second
GetStatus call then finds no active subscription row, reports
unsubscribed and mutates nothing further. -/
theorem C1_status_lazy_expiry (uid : String) (now now2 : Nat) (db : DB)
    (sub : Subscription) (e : Nat) (user : User)
    (hmem : sub ∈ db.subscriptions) (huid : sub.user_id = uid)
    (hact : sub.is_active = true) (hexp : sub.expires_at = some e) (hlt : e < now)
    (huniq : ∀ s ∈ db.subscriptions, s.user_id = uid → s.is_active = true → s = sub)
    (hnodup : (db.subscriptions.map Subscription.id).Nodup)
    (huser : db.users.find? (fun v => v.id == uid) = some user) :
    (get_subscription_status uid now db).1
        = { is_subscribed := false, subscription := none } ∧
    ∃ pre post,
      db.subscriptions = pre ++ sub :: post ∧
      (get_subscription_status uid now db).2.subscriptions
          = pre ++ { sub with is_active := false } :: post ∧
      (get_subscription_status uid now db).2.users.find? (fun v => v.id == uid)
          = some { user with is_subscribed := false } ∧
      (get_subscription_status uid now db).2.instrumentals = db.instrumentals ∧
      (get_subscription_status uid now db).2.playlists = db.playlists ∧
      (get_subscription_status uid now db).2.subscriptions.find?
          (fun s => s.user_id == uid && s.is_active) = none ∧
      get_subscription_status uid now2 (get_subscription_status uid now db).2
          = ({ is_subscribed := false, subscription := none },
             (get_subscription_status uid now db).2) := by
  have hsome : (db.subscriptions.find? fun s => s.user_id == uid && s.is_active).isSome := by
    rw [List.find?_isSome]
    exact ⟨sub, hmem, by simp [huid, hact]⟩
  obtain ⟨s0, hs0⟩ := Option.isSome_iff_exists.mp hsome
  have hps0 := List.find?_some hs0
  simp only [Bool.and_eq_true, beq_iff_eq] at hps0
  have hs0sub : s0 = sub := huniq s0 (List.mem_of_find?_eq_some hs0) hps0.1 hps0.2
  subst hs0sub
  obtain ⟨pre, post, he, hprefalse⟩ := find?_decomp hs0
  have hpreid : ∀ y ∈ pre, (y.id == s0.id) = false := by
    intro y hy
    have hymem : y ∈ db.subscriptions := he ▸ List.mem_append_left _ hy
    rw [beq_eq_false_iff_ne]
    intro hid
    have hysub : y = s0 := List.inj_on_of_nodup_map hnodup hymem hmem hid
    have hfalse := hprefalse y hy
    rw [hysub] at hfalse
    simp [huid, hact] at hfalse
  have hsubsNew : updateFirst (fun s => s.id == s0.id)
      (fun s => { s with is_active := false }) db.subscriptions
      = pre ++ { s0 with is_active := false } :: post := by
    rw [he]
    exact updateFirst_append _ hpreid (by simp) post
  obtain ⟨upre, upost, hue, huf⟩ := find?_decomp huser
  have hpu := List.find?_some huser
  have husers : updateFirst (fun v => v.id == uid)
      (fun v => { v with is_subscribed := false }) db.users
      = upre ++ { user with is_subscribed := false } :: upost := by
    rw [hue]
    exact updateFirst_append _ huf hpu upost
  have hufind : (upre ++ { user with is_subscribed := false } :: upost).find?
      (fun v => v.id == uid) = some { user with is_subscribed := false } := by
    refine find?_append_first huf ?_ upost
    simpa using hpu
  have hnoactive : (pre ++ { s0 with is_active := false } :: post).find?
      (fun s => s.user_id == uid && s.is_active) = none := by
    rw [List.find?_eq_none]
    intro y hy
    rcases List.mem_append.mp hy with hy | hy
    · have := hprefalse y hy
      simp [this]
    · rcases List.mem_cons.mp hy with rfl | hy
      · simp
      · intro hpy
        simp only [Bool.and_eq_true, beq_iff_eq] at hpy
        have hymem : y ∈ db.subscriptions :=
          he ▸ List.mem_append_right _ (List.mem_cons_of_mem _ hy)
        have hysub : y = s0 := huniq y hymem hpy.1 hpy.2
        have hid : y.id = s0.id := by rw [hysub]
        exact absurd hid (nodup_map_middle (he ▸ hnodup) hy)
  have hrun : get_subscription_status uid now db
      = ({ is_subscribed := false, subscription := none },
         { db with subscriptions := pre ++ { s0 with is_active := false } :: post,
                   users := upre ++ { user with is_subscribed := false } :: upost }) := by
    simp [get_subscription_status, hs0, hexp, hlt, hsubsNew, husers]
  refine ⟨by rw [hrun], pre, post, he, by rw [hrun], ?_, by rw [hrun], by rw [hrun], ?_, ?_⟩
  · rw [hrun]
    exact hufind
  · rw [hrun]
    exact hnoactive
  · rw [hrun]
    simp [get_subscription_status, hnoactive]

/-- C1 witness: the expired-subscription store at times 200 and 300. -/
theorem C1_status_lazy_expiry_witness :
    (get_subscription_status "u1" 200 expiredDB).1
        = { is_subscribed := false, subscription := none } ∧
    ∃ pre post,
      expiredDB.subscriptions = pre ++ expiredSub :: post ∧
      (get_subscription_status "u1" 200 expiredDB).2.subscriptions
          = pre ++ { expiredSub with is_active := false } :: post ∧
      (get_subscription_status "u1" 200 expiredDB).2.users.find? (fun v => v.id == "u1")
          = some { subUser with is_subscribed := false } ∧
      (get_subscription_status "u1" 200 expiredDB).2.instrumentals = expiredDB.instrumentals ∧
      (get_subscription_status "u1" 200 expiredDB).2.playlists = expiredDB.playlists ∧
      (get_subscription_status "u1" 200 expiredDB).2.subscriptions.find?
          (fun s => s.user_id == "u1" && s.is_active) = none ∧
      get_subscription_status "u1" 300 (get_subscription_status "u1" 200 expiredDB).2
          = ({ is_subscribed := false, subscription := none },
             (get_subscription_status "u1" 200 expiredDB).2) :=
  C1_status_lazy_expiry "u1" 200 300 expiredDB expiredSub 100 subUser
    (by simp [expiredDB]) rfl rfl rfl (by decide)
    (by intro s hs h1 h2; simpa [expiredDB] using hs)
    (by simp [expiredDB]) rfl

/-- On a purely literal pattern the anchored matcher is exactly the
case-insensitive prefix test. -/
theorem matchHere_lit (needle : List Char) :
    ∀ hay, matchHere (needle.map RAtom.lit) hay = isPrefixCI needle hay := by
  induction needle with
  | nil => intro hay; rfl
  | cons a as ih =>
    intro hay
    cases hay with
    | nil => rfl
    | cons b bs => simp [matchHere, isPrefixCI, atomMatch, ih]

/-- On a purely literal pattern the unanchored search is exactly the
case-insensitive substring test. -/
theorem regexSearch_lit (needle : List Char) :
    ∀ hay, regexSearch (needle.map RAtom.lit) hay = containsCI needle hay := by
  intro hay
  induction hay with
  | nil => simp [regexSearch, containsCI, matchHere_lit]
  | cons c cs ih => simp [regexSearch, containsCI, matchHere_lit, ih]

/-- A search string avoiding every PCRE metacharacter parses to an
all-literal pattern. -/
theorem toAtoms_no_meta {s : String} (h : ∀ c ∈ s.data, c ∉ pcreMeta) :
    toAtoms s = s.data.map RAtom.lit := by
  unfold toAtoms
  apply List.map_congr_left
  intro c hc
  have hdot : c ≠ '.' := by
    intro he
    exact h c hc (he ▸ (by decide : ('.' : Char) ∈ pcreMeta))
  have hb : (c == '.') = false := beq_eq_false_iff_ne.mpr hdot
  rw [hb]
  rfl

/-- C6 (amended): for a non-empty search string containing no PCRE
metacharacter, List with only the search filter returns exactly the
instrumentals (up to the 100 cap) whose title contains the string as a
case-insensitive substring.  In general the search string is handed to
the store as a case-insensitive regular expression, not as a literal,
so metacharacters change the match semantics. -/
theorem C6_search_literal (s : String) (db : DB)
    (hne : s ≠ "") (hmeta : ∀ c ∈ s.data, c ∉ pcreMeta) :
    get_instrumentals none none (some s) db
      = (db.instrumentals.filter fun i => titleContainsCI i.title s).take 100 := by
  have hbne : (s != "") = true := by simpa using hne
  have hfilter : ∀ i ∈ db.instrumentals,
      (moodFilter none i && premiumFilter none i && searchFilter (some s) i)
        = titleContainsCI i.title s := by
    intro i _
    simp only [moodFilter, premiumFilter, searchFilter, hbne, if_true, Bool.true_and]
    rw [toAtoms_no_meta hmeta, regexSearch_lit]
    rfl
  rw [get_instrumentals, List.filter_congr hfilter]

/-- C6 witness: searching "dawn" in the catalog holding "Nasheed of
Dawn" returns exactly the substring filter, which concretely is that
one matching track. -/
theorem C6_search_literal_witness :
    get_instrumentals none none (some "dawn") dawnDB
      = (dawnDB.instrumentals.filter fun i => titleContainsCI i.title "dawn").take 100 ∧
    get_instrumentals none none (some "dawn") dawnDB = [mkTrack "i1" "Nasheed of Dawn"] :=
  ⟨C6_search_literal "dawn" dawnDB (by decide) (by decide), by decide⟩

/-- C6 counterexample: search "a.c" matches the title "abc" through the
regex wildcard although "a.c" is not a substring of "abc", so for this
search string the result is not the case-insensitive-substring
filter. -/
theorem C6_search_counterexample :
    get_instrumentals none none (some "a.c") dotDB
      ≠ (dotDB.instrumentals.filter fun i => titleContainsCI i.title "a.c").take 100 := by
  decide

end Sadaa
